import Mathlib

/-!
Shallow embedding of the batch transcription core of the transcriber
service: the media-file locator, the dispatcher and the result aggregator
(src/transcriber/main module, tool `transcribe_file` and tool
`read_transcript`), the per-file transcription wrapper
(src/transcriber/lib/transcribe.py, `transcribe_audiofile`), and the
transcript data model (src/transcriber/models/transcript.py).

Modelling conventions:
- JSON values are an inductive tree; JSON numbers are exact rationals
  (CPython serialises floats with shortest round-tripping repr, so the
  concrete values appearing in the claims round-trip exactly).
- File-system effects (mkdir, open-for-write, json.dump) and the remote
  transcription service are explicit oracles / outcome parameters.
- The completion order of the concurrently dispatched tasks is an explicit
  schedule consumed by a gather model.
- Python strings are Lean `String`s; character-level operations
  (lstrip, lower, rfind) are reimplemented on the char list.
-/

set_option autoImplicit false

namespace Transcriber

/-- JSON values as produced by json.dump / json.load.  Objects keep their
key/value pairs in insertion order; lookup is last-wins, matching how
CPython builds a dict from parsed pairs. -/
inductive Json where
  | null : Json
  | bool (b : Bool) : Json
  | num (q : ℚ) : Json
  | str (s : String) : Json
  | arr (xs : List Json) : Json
  | obj (kvs : List (String × Json)) : Json

/-- Lookup in a parsed JSON object, last occurrence of the key wins
(CPython dict construction semantics). -/
def dictLookup (kvs : List (String × Json)) (k : String) : Option Json :=
  kvs.foldl (fun acc kv => if kv.1 == k then some kv.2 else acc) none

/-- Python equality of a string against an arbitrary JSON value: it is true
exactly on the equal string (a string never equals a number, list, ...). -/
def jsonEqStr (s : String) : Json → Bool
  | .str t => s == t
  | _ => false

/-- All suffixes of a list, longest first, the empty list last. -/
def tailsOf {α : Type} : List α → List (List α)
  | [] => [[]]
  | x :: xs => (x :: xs) :: tailsOf xs

/-- Python `needle in container` on a JSON value: key membership for a
dict, element membership for a list, substring for a string, and a
TypeError for the non-iterable values. -/
def pyContains (needle : String) : Json → Except String Bool
  | .obj kvs => .ok (kvs.any (fun kv => kv.1 == needle))
  | .arr xs => .ok (xs.any (jsonEqStr needle))
  | .str s => .ok ((tailsOf s.toList).any (fun t => needle.toList.isPrefixOf t))
  | _ => .error "argument of type is not iterable"

/-- Python `container[key]` with a string key: dict lookup (KeyError when
absent), TypeError on the other shapes. -/
def pyGetItem : Json → String → Except String Json
  | .obj kvs, k =>
    match dictLookup kvs k with
    | some v => .ok v
    | none => .error ("KeyError: " ++ k)
  | .arr _, _ => .error "list indices must be integers or slices, not str"
  | .str _, _ => .error "string indices must be integers"
  | _, _ => .error "object is not subscriptable"

/-- The Word model of models/transcript.py: a pydantic BaseModel with no
validators beyond field types, so no relation between the fields is
enforced.  Python ints are Lean `Int`, the float confidence is an exact
rational. -/
structure Word where
  text : String
  start : Int
  «end» : Int
  confidence : ℚ
  speaker : Option String
  channel : Option String
deriving DecidableEq

/-- JSON value of an optional string field (None serialises to null). -/
def optStrJson : Option String → Json
  | none => Json.null
  | some s => Json.str s

/-- Word.model_dump: the dict pydantic serialises for a Word. -/
def Word.model_dump (w : Word) : Json :=
  Json.obj
    [("text", Json.str w.text), ("start", Json.num (w.start : ℚ)),
     ("end", Json.num (w.«end» : ℚ)), ("confidence", Json.num w.confidence),
     ("speaker", optStrJson w.speaker), ("channel", optStrJson w.channel)]

/-- Pydantic validation of a string field. -/
def Json.asStr : Json → Except String String
  | .str s => .ok s
  | _ => .error "Input should be a valid string"

/-- Pydantic validation of an int field: a JSON number with no fractional
part. -/
def Json.asInt : Json → Except String Int
  | .num q => if q.den = 1 then .ok q.num else .error "Input should be a valid integer"
  | _ => .error "Input should be a valid integer"

/-- Pydantic validation of a float field (ints are accepted). -/
def Json.asNum : Json → Except String ℚ
  | .num q => .ok q
  | _ => .error "Input should be a valid number"

/-- Pydantic validation of an Optional[str] field with default None. -/
def Json.asOptStr : Option Json → Except String (Option String)
  | none => .ok none
  | some .null => .ok none
  | some (.str s) => .ok (some s)
  | some _ => .error "Input should be a valid string"

/-- Word.model_validate: builds a Word from a JSON dict.  text, start and
end are required; confidence defaults to 1.0; speaker and channel default
to None; extra keys are ignored; no bound or ordering constraint is
checked (the source model declares no validators). -/
def Word.model_validate : Json → Except String Word
  | Json.obj kvs => do
    let text ← match dictLookup kvs "text" with
      | some j => Json.asStr j
      | none => Except.error "Field required: text"
    let start ← match dictLookup kvs "start" with
      | some j => Json.asInt j
      | none => Except.error "Field required: start"
    let endv ← match dictLookup kvs "end" with
      | some j => Json.asInt j
      | none => Except.error "Field required: end"
    let confidence ← match dictLookup kvs "confidence" with
      | some j => Json.asNum j
      | none => Except.ok (1 : ℚ)
    let speaker ← Json.asOptStr (dictLookup kvs "speaker")
    let channel ← Json.asOptStr (dictLookup kvs "channel")
    Except.ok { text := text, start := start, «end» := endv, confidence := confidence,
                speaker := speaker, channel := channel }
  | _ => Except.error "Input should be a valid dictionary"

/-- The Transcript model of models/transcript.py. -/
structure Transcript where
  text : String
  words : List Word
deriving DecidableEq

/-- Transcript.model_dump: the dict pydantic serialises for a Transcript. -/
def Transcript.model_dump (t : Transcript) : Json :=
  Json.obj [("text", Json.str t.text), ("words", Json.arr (t.words.map Word.model_dump))]

/-- Body of the try block of Transcript.from_file once the JSON is parsed:
checks the presence of the top-level text and words fields, validates each
word, and builds the Transcript. -/
def Transcript.fromFileDataInner (data : Json) (file_path : String) : Except String Transcript := do
  let hasText ← pyContains "text" data
  if !hasText then
    Except.error ("Missing required field 'text' in transcript file: " ++ file_path)
  else do
    let hasWords ← pyContains "words" data
    if !hasWords then
      Except.error ("Missing required field 'words' in transcript file: " ++ file_path)
    else do
      let wordsJson ← pyGetItem data "words"
      let words ← match wordsJson with
        | Json.arr xs => xs.mapM Word.model_validate
        | _ => Except.error "'words' is not a list"
      let textJson ← pyGetItem data "text"
      let text ← Json.asStr textJson
      Except.ok { text := text, words := words }

/-- Transcript.from_file after the file has been read and parsed to a JSON
value: every error raised inside the try block (including the missing-field
ValueErrors, which the generic except-clause of the source re-wraps) is
reported as an Error-parsing ValueError. -/
def Transcript.fromFileData (file_path : String) (data : Json) : Except String Transcript :=
  match Transcript.fromFileDataInner data file_path with
  | .ok t => .ok t
  | .error e => .error ("Error parsing transcript file " ++ file_path ++ ": " ++ e)

/-- The read_transcript tool of the main module, given the result of
opening and json.load-ing the file (an error there is caught by the outer
except-clause): extracts the top-level text field when present, reports a
missing-field failure dict when absent, and wraps any raised error into a
failed-to-load failure dict. -/
def read_transcript (json_path : String) (load : Except String Json) : List (String × Json) :=
  match load with
  | .error e =>
    [("status", Json.str "failure"),
     ("error", Json.str ("Failed to load transcription from " ++ json_path ++ ": " ++ e))]
  | .ok transcript_data =>
    match pyContains "text" transcript_data with
    | .error e =>
      [("status", Json.str "failure"),
       ("error", Json.str ("Failed to load transcription from " ++ json_path ++ ": " ++ e))]
    | .ok b =>
      if b then
        match pyGetItem transcript_data "text" with
        | .ok v => [("status", Json.str "success"), ("text", v)]
        | .error e =>
          [("status", Json.str "failure"),
           ("error", Json.str ("Failed to load transcription from " ++ json_path ++ ": " ++ e))]
      else
        [("status", Json.str "failure"),
         ("error", Json.str ("No 'text' field found in the JSON file at " ++ json_path))]

/-- Python str.rfind restricted to a single character: index of its last
occurrence, if any. -/
def pyRfind (c : Char) (s : String) : Option Nat :=
  ((List.range s.toList.length).filter (fun i => s.toList.getD i ' ' == c)).getLast?

/-- pathlib PurePath.suffix on a final path component: the substring from
the last dot, provided that dot is neither the first nor the last
character; empty otherwise. -/
def pySuffix (name : String) : String :=
  match pyRfind '.' name with
  | some i =>
    if 0 < i ∧ i < name.toList.length - 1 then String.mk (name.toList.drop i) else ""
  | none => ""

/-- Python str.lstrip with the single-character set of a dot: drops every
leading dot. -/
def pyLstripDot (s : String) : String :=
  String.mk (s.toList.dropWhile (fun c => c == '.'))

/-- Python str.lower for the ASCII strings involved here. -/
def pyLower (s : String) : String :=
  String.mk (s.toList.map Char.toLower)

/-- Split a character list at every slash (Python str.split with a
one-character separator). -/
def splitSlashAux : List Char → List Char → List (List Char)
  | [], cur => [cur.reverse]
  | c :: cs, cur =>
    if c == '/' then cur.reverse :: splitSlashAux cs [] else splitSlashAux cs (c :: cur)

/-- Components of a path string, separated by slashes. -/
def splitSlash (s : String) : List String :=
  (splitSlashAux s.toList []).map String.mk

/-- Join strings with slashes. -/
def joinSlash (xs : List String) : String :=
  match xs with
  | [] => ""
  | x :: rest => rest.foldl (fun acc y => acc ++ "/" ++ y) x

/-- Final component of a path string (pathlib name). -/
def lastComponent (p : String) : String :=
  (splitSlash p).getLastD p

/-- pathlib Path.parent rendered back to a string: drop the final
component; a single-component relative path has parent the current
directory, a single-component absolute path has parent the root. -/
def parentOf (p : String) : String :=
  let comps := splitSlash p
  if comps.length ≤ 1 then "."
  else if comps.dropLast = [""] then "/"
  else joinSlash comps.dropLast

/-- str(Path(dir) / name) for the directory strings parentOf produces. -/
def joinDir (dir name : String) : String :=
  if dir = "." then name
  else if dir = "/" then "/" ++ name
  else dir ++ "/" ++ name

/-- str(Path(p).parent / "transcript.json"), the sibling output path the
source computes for each processed media file. -/
def siblingJsonPath (p : String) : String :=
  joinDir (parentOf p) "transcript.json"

/-- SUPPORTED_FORMATS from config/config.py, verbatim: each entry carries
a leading dot. -/
def SUPPORTED_FORMATS : List String :=
  [".mp3", ".mp4", ".wav", ".ogg", ".flac", ".m4a", ".webm"]

/-- fnmatch-style glob match over one path component: a star matches any
(possibly empty) character sequence, every other pattern character is
literal. -/
def globMatchL : List Char → List Char → Bool
  | [], name => name.isEmpty
  | c :: ps, name =>
    if c == '*' then (tailsOf name).any (fun t => globMatchL ps t)
    else
      match name with
      | [] => false
      | d :: name' => c == d && globMatchL ps name'

/-- Glob match on strings. -/
def globMatchS (pat name : String) : Bool :=
  globMatchL pat.toList name.toList

/-- A file in the scanned directory tree is its list of path components
relative to the scan root; a direct child has a single component. -/
def entryName (e : List String) : String :=
  e.getLastD ""

/-- Path.glob with a single-component pattern: the direct children whose
name matches. -/
def globDirect (entries : List (List String)) (pat : String) : List (List String) :=
  entries.filter (fun e => e.length == 1 && globMatchS pat (entryName e))

/-- Path.rglob with a single-component pattern, equivalently Path.glob of
the same pattern under a leading double-star segment: every file of the
subtree whose name matches. -/
def globRecursive (entries : List (List String)) (pat : String) : List (List String) :=
  entries.filter (fun e => globMatchS pat (entryName e))

/-- The directory branch of transcribe_file: mp3 files are collected with
the plain star-dot-mp3 pattern (rglob when recursive); for each format of
SUPPORTED_FORMATS other than the dotless string mp3 — which is none of
them, since every entry is dotted — the pattern star-dot-format is built
and globbed (under a leading double-star segment when recursive); all
matches are appended in order, without any duplicate elimination. -/
def locateDir (entries : List (List String)) (recursive : Bool) : List (List String) :=
  let mp3 := if recursive then globRecursive entries "*.mp3" else globDirect entries "*.mp3"
  let other_formats := SUPPORTED_FORMATS.filter (fun fmt => fmt ≠ "mp3")
  let patterns := other_formats.map (fun fmt => "*." ++ fmt)
  mp3 ++ patterns.foldl
    (fun acc pat =>
      acc ++ (if recursive then globRecursive entries pat else globDirect entries pat))
    []

/-- Per-file outcome dicts the aggregation loop appends to results. -/
inductive FileOutcome where
  | success (file : String) (json_path : String) : FileOutcome
  | failure (file : String) (error : String) : FileOutcome
deriving DecidableEq

/-- The file a per-file outcome reports on. -/
def FileOutcome.file : FileOutcome → String
  | .success f _ => f
  | .failure f _ => f

/-- The data field of the returned dict: a list of per-file outcomes, or —
in the unsupported-format early return — the bare rejected-extension
string. -/
inductive BatchData where
  | outcomes (xs : List FileOutcome) : BatchData
  | strData (s : String) : BatchData
deriving DecidableEq

/-- The dict transcribe_file returns: status, message, data. -/
structure BatchResult where
  status : String
  message : String
  data : BatchData
deriving DecidableEq

/-- The outcome list carried by a batch result (empty for the string-data
shape). -/
def BatchResult.dataList (r : BatchResult) : List FileOutcome :=
  match r.data with
  | .outcomes xs => xs
  | .strData _ => []

/-- A value a dispatched task can resolve to: a Transcript object (what
line 137 of the main module assumes, with a model_dump method) or a plain
status dict (what transcribe_audiofile actually returns). -/
inductive TaskValue where
  | transcript (t : Transcript) : TaskValue
  | statusDict (kvs : List (String × Json)) : TaskValue

/-- What asyncio.gather with return_exceptions hands back per task: the
raised exception, or the returned value. -/
inductive AttemptResult where
  | exn (msg : String) : AttemptResult
  | val (v : TaskValue) : AttemptResult

/-- File-system oracle: outcomes of mkdir -p, open-for-write and
json.dump on the real file system. -/
structure FsOracle where
  mkdirP : String → Except String Unit
  openW : String → Except String Unit
  writeOut : String → Json → Except String Unit

/-- result.model_dump() as evaluated by the aggregation loop: defined for
a Transcript, an AttributeError for a plain dict. -/
def TaskValue.model_dump : TaskValue → Except String Json
  | .transcript t => Except.ok (Transcript.model_dump t)
  | .statusDict _ => Except.error "'dict' object has no attribute 'model_dump'"

/-- The try block of the aggregation loop: open the output file for
writing, evaluate result.model_dump(), json.dump it. -/
def tryWriteJson (fs : FsOracle) (json_output_path : String) (v : TaskValue) :
    Except String Unit := do
  fs.openW json_output_path
  let j ← v.model_dump
  fs.writeOut json_output_path j

/-- The conditional downgrade of the overall status performed on each
failure: success becomes partial_success, anything else is kept. -/
def demote (s : String) : String :=
  if s = "success" then "partial_success" else s

/-- The single results-list entry the aggregation loop appends for one
(file, gathered result) pair: a raised exception is recorded directly as a
failure; otherwise the sibling transcript.json path is computed and the
write is attempted, giving a success entry or a write-failure entry. -/
def perFileOutcome (fs : FsOracle) (p : String × AttemptResult) : FileOutcome :=
  match p.2 with
  | .exn e => .failure p.1 e
  | .val v =>
    let jp := siblingJsonPath p.1
    match tryWriteJson fs jp v with
    | .ok _ => .success p.1 jp
    | .error e => .failure p.1 ("Failed to write JSON to " ++ jp ++ ": " ++ e)

/-- Overall-status update for one appended entry: unchanged on a success
entry, demoted on a failure entry (both failure branches of the loop run
the same conditional). -/
def statusAfter (s : String) : FileOutcome → String
  | .success _ _ => s
  | .failure _ _ => demote s

/-- One iteration of the aggregation loop over the accumulated
(overall status, results) state. -/
def processPair (fs : FsOracle) (acc : String × List FileOutcome)
    (p : String × AttemptResult) : String × List FileOutcome :=
  let o := perFileOutcome fs p
  (statusAfter acc.1 o, acc.2 ++ [o])

/-- Dispatch over the located files and aggregation of the gathered
results, lines 117-169 of the main module: tasks are created in file
order, gathered with exceptions returned as values, folded into the
results list and overall status, and wrapped with the status-dependent
message. -/
def dispatchAndAggregate (fs : FsOracle) (attempt : String → AttemptResult)
    (files : List String) : BatchResult :=
  let pairs := files.map (fun f => (f, attempt f))
  let agg := pairs.foldl (processPair fs) ("success", [])
  let msg0 := if agg.1 = "success" then "Transcription complete."
              else "Transcription complete with some failures."
  let msg := if agg.1 = "failure" then "Transcription failed for all files." else msg0
  { status := agg.1, message := msg, data := BatchData.outcomes agg.2 }

/-- Classification of the input path, with the tree listing when it is a
directory. -/
inductive PathKind where
  | isFile : PathKind
  | isDir (entries : List (List String)) : PathKind
  | neither : PathKind

/-- The transcribe_file tool: directory inputs are scanned by locateDir
and an empty scan short-circuits to a no-files-found failure; a regular
file has the dot-stripped lowercased suffix checked for membership in
SUPPORTED_FORMATS, with the unsupported-format failure carrying that
extension as data; anything else is an invalid-path failure; the surviving
file list is dispatched and aggregated. -/
def transcribe_file (fs : FsOracle) (attempt : String → AttemptResult)
    (input_path : String) (kind : PathKind) (recursive : Bool) : BatchResult :=
  match kind with
  | .isDir entries =>
    let files := (locateDir entries recursive).map
      (fun e => joinSlash (input_path :: e))
    if files.isEmpty then
      { status := "failure",
        message := "No supported media files found in " ++ input_path,
        data := BatchData.outcomes [] }
    else
      dispatchAndAggregate fs attempt files
  | .isFile =>
    let ext := pyLower (pyLstripDot (pySuffix (lastComponent input_path)))
    if SUPPORTED_FORMATS.contains ext then
      dispatchAndAggregate fs attempt [input_path]
    else
      { status := "failure",
        message := "File " ++ input_path ++ " has an unsupported format.",
        data := BatchData.strData ext }
  | .neither =>
    { status := "failure",
      message := "Invalid input_path: " ++ input_path ++ " is neither a file nor a directory.",
      data := BatchData.outcomes [] }

/-- One completion event of the gather model: when the completed index is
in range, its result value is stored in its own slot of the result
array. -/
def gatherStep (tasks : List AttemptResult) (acc : List (Option AttemptResult))
    (i : Nat) : List (Option AttemptResult) :=
  match tasks.get? i with
  | some r => acc.set i (some r)
  | none => acc

/-- asyncio.gather modelled with an explicit completion schedule: tasks
complete in schedule order and each stores its result at its task index;
the output slots therefore depend on task order, not completion order. -/
def gatherSchedule (tasks : List AttemptResult) (schedule : List Nat) :
    List (Option AttemptResult) :=
  schedule.foldl (gatherStep tasks) (List.replicate tasks.length none)

/-- What the remote service call returns when it completes: an object with
text and word list (the transcript case), or the plain error-message
string the service returns on its own validation failures. -/
inductive ServiceValue where
  | transcriptLike (text : String) (words : List Word) : ServiceValue
  | errorString (s : String) : ServiceValue

/-- The remote transcription call, which can also raise. -/
inductive ServiceResult where
  | raises (e : String) : ServiceResult
  | retVal (v : ServiceValue) : ServiceResult

/-- What a call of transcribe_audiofile does: raise (the service call sits
outside the try block, so its exception propagates to gather), or return a
value. -/
inductive CallResult where
  | raised (e : String) : CallResult
  | returned (v : TaskValue) : CallResult

/-- The try block of transcribe_audiofile: ensure the output directory,
read text and words off the service value (an AttributeError when the
service returned a bare string), build the Transcript object and persist
its dump. -/
def attemptSave (fs : FsOracle) (json_output_path : String) (v : ServiceValue) :
    Except String Unit := do
  fs.mkdirP (parentOf json_output_path)
  match v with
  | .errorString _ => Except.error "'str' object has no attribute 'text'"
  | .transcriptLike text words => do
    fs.openW json_output_path
    fs.writeOut json_output_path (Transcript.model_dump { text := text, words := words })

/-- transcribe_audiofile of lib/transcribe.py: computes the sibling
transcript.json path, calls the service (exceptions propagate), and
converts the save attempt into a plain status dict — result Success with
the output path, or result Failure with the failed-to-save message.  It
never returns a Transcript object. -/
def transcribe_audiofile (fs : FsOracle) (svc : ServiceResult) (audio_path : String) :
    CallResult :=
  let json_output_path := siblingJsonPath audio_path
  match svc with
  | .raises e => .raised e
  | .retVal v =>
    match attemptSave fs json_output_path v with
    | .ok _ =>
      .returned (.statusDict
        [("result", Json.str "Success"), ("json_output_path", Json.str json_output_path)])
    | .error e =>
      .returned (.statusDict
        [("result", Json.str "Failure"),
         ("error", Json.str ("Failed to save transcription to " ++ json_output_path ++ ": " ++ e))])

/-- Oracle on which every file-system step succeeds. -/
def fsOk : FsOracle :=
  { mkdirP := fun _ => Except.ok (), openW := fun _ => Except.ok (),
    writeOut := fun _ _ => Except.ok () }

/-- Oracle on which json.dump fails with a full disk. -/
def fsRejectWrites : FsOracle :=
  { mkdirP := fun _ => Except.ok (), openW := fun _ => Except.ok (),
    writeOut := fun _ _ => Except.error "disk full" }

/-- Attempt outcome function on which every task raises. -/
def attemptBoom : String → AttemptResult :=
  fun _ => AttemptResult.exn "boom"

/-- Two files in one directory: the first raises during transcription, the
second resolves to a Transcript value. -/
def sampleFiles : List String := ["a/x.mp3", "a/y.wav"]

/-- Attempt outcomes for sampleFiles. -/
def sampleAttempt : String → AttemptResult :=
  fun f =>
    if f == "a/x.mp3" then AttemptResult.exn "boom"
    else AttemptResult.val (TaskValue.transcript { text := "hi", words := [] })

/-- A completion order in which the second task finishes first. -/
def sampleSchedule : List Nat := [1, 0]

/-- Concrete Word data that violates the claimed invariant: start after
end, confidence above one. -/
def badWordJson : Json :=
  Json.obj [("text", Json.str "a"), ("start", Json.num 5), ("end", Json.num 3),
            ("confidence", Json.num 2)]

/-- The Word the model builds from badWordJson without complaint. -/
def badWord : Word :=
  { text := "a", start := 5, «end» := 3, confidence := 2, speaker := none, channel := none }

/-- The round-trip Transcript of the spec scenario. -/
def roundTripTranscript : Transcript :=
  { text := "hello world",
    words := [{ text := "hello", start := 0, «end» := 500, confidence := 9/10,
                speaker := none, channel := none }] }

/-! Helper lemmas about the aggregation fold, dictionary lookup, and the
gather model. -/

theorem foldl_processPair_snd (fs : FsOracle) (pairs : List (String × AttemptResult)) :
    ∀ (s : String) (acc : List FileOutcome),
      (pairs.foldl (processPair fs) (s, acc)).2 = acc ++ pairs.map (perFileOutcome fs) := by
  induction pairs with
  | nil => intro s acc; simp
  | cons p ps ih =>
    intro s acc
    simp only [List.foldl_cons, List.map_cons, processPair]
    rw [ih]
    simp

theorem foldl_processPair_fst (fs : FsOracle) (pairs : List (String × AttemptResult)) :
    ∀ (s : String) (acc : List FileOutcome),
      (pairs.foldl (processPair fs) (s, acc)).1
        = pairs.foldl (fun st p => statusAfter st (perFileOutcome fs p)) s := by
  induction pairs with
  | nil => intro s acc; rfl
  | cons p ps ih =>
    intro s acc
    simp only [List.foldl_cons, processPair]
    rw [ih]

theorem statusAfter_mem (s : String) (o : FileOutcome)
    (h : s = "success" ∨ s = "partial_success") :
    statusAfter s o = "success" ∨ statusAfter s o = "partial_success" := by
  cases o with
  | success f j => exact h
  | failure f e =>
    rcases h with h | h <;> subst h <;> right <;> simp [statusAfter, demote]

theorem statusFold_mem (fs : FsOracle) (pairs : List (String × AttemptResult)) :
    ∀ s, (s = "success" ∨ s = "partial_success") →
      (pairs.foldl (fun st p => statusAfter st (perFileOutcome fs p)) s = "success"
       ∨ pairs.foldl (fun st p => statusAfter st (perFileOutcome fs p)) s
           = "partial_success") := by
  induction pairs with
  | nil => intro s h; simpa using h
  | cons p ps ih =>
    intro s h
    simp only [List.foldl_cons]
    exact ih _ (statusAfter_mem s (perFileOutcome fs p) h)

theorem dispatch_dataList (fs : FsOracle) (attempt : String → AttemptResult)
    (files : List String) :
    (dispatchAndAggregate fs attempt files).dataList
      = files.map (fun f => perFileOutcome fs (f, attempt f)) := by
  show ((files.map fun f => (f, attempt f)).foldl (processPair fs) ("success", [])).2 = _
  rw [foldl_processPair_snd, List.map_map]
  simp

theorem dispatch_status_mem (fs : FsOracle) (attempt : String → AttemptResult)
    (files : List String) :
    (dispatchAndAggregate fs attempt files).status = "success"
    ∨ (dispatchAndAggregate fs attempt files).status = "partial_success" := by
  have h1 : (dispatchAndAggregate fs attempt files).status
      = ((files.map fun f => (f, attempt f)).foldl (processPair fs) ("success", [])).1 := rfl
  rw [h1, foldl_processPair_fst]
  exact statusFold_mem fs _ "success" (Or.inl rfl)

theorem perFileOutcome_exn (fs : FsOracle) (f e : String) :
    perFileOutcome fs (f, AttemptResult.exn e) = FileOutcome.failure f e := rfl

theorem perFileOutcome_val_ok (fs : FsOracle) (f : String) (v : TaskValue)
    (hw : tryWriteJson fs (siblingJsonPath f) v = Except.ok ()) :
    perFileOutcome fs (f, AttemptResult.val v)
      = FileOutcome.success f (siblingJsonPath f) := by
  show (match tryWriteJson fs (siblingJsonPath f) v with
        | Except.ok _ => FileOutcome.success f (siblingJsonPath f)
        | Except.error e =>
          FileOutcome.failure f
            ("Failed to write JSON to " ++ siblingJsonPath f ++ ": " ++ e)) = _
  rw [hw]

theorem perFileOutcome_val_err (fs : FsOracle) (f : String) (v : TaskValue) (c : String)
    (hw : tryWriteJson fs (siblingJsonPath f) v = Except.error c) :
    perFileOutcome fs (f, AttemptResult.val v)
      = FileOutcome.failure f
          ("Failed to write JSON to " ++ siblingJsonPath f ++ ": " ++ c) := by
  show (match tryWriteJson fs (siblingJsonPath f) v with
        | Except.ok _ => FileOutcome.success f (siblingJsonPath f)
        | Except.error e =>
          FileOutcome.failure f
            ("Failed to write JSON to " ++ siblingJsonPath f ++ ": " ++ e)) = _
  rw [hw]

theorem perFileOutcome_file (fs : FsOracle) (p : String × AttemptResult) :
    (perFileOutcome fs p).file = p.1 := by
  rcases p with ⟨f, r⟩
  cases r with
  | exn e => rfl
  | val v =>
    simp only [perFileOutcome]
    cases h : tryWriteJson fs (siblingJsonPath f) v <;> simp [h, FileOutcome.file]

theorem dictLookup_foldl_skip (k : String) :
    ∀ (kvs : List (String × Json)) (acc : Option Json),
      kvs.any (fun kv => kv.1 == k) = false →
      kvs.foldl (fun a kv => if kv.1 == k then some kv.2 else a) acc = acc := by
  intro kvs
  induction kvs with
  | nil => intro acc _; rfl
  | cons kv rest ih =>
    intro acc h
    simp only [List.any_cons, Bool.or_eq_false_iff] at h
    simp only [List.foldl_cons, h.1, Bool.false_eq_true, if_false]
    exact ih acc h.2

theorem get?_set_self_of_lt {α : Type} :
    ∀ (l : List α) (i : Nat) (a : α), i < l.length → (l.set i a).get? i = some a := by
  intro l
  induction l with
  | nil => intro i a h; simp at h
  | cons x xs ih =>
    intro i a h
    cases i with
    | zero => rfl
    | succ n => exact ih n a (Nat.lt_of_succ_lt_succ h)

theorem get?_set_of_ne {α : Type} :
    ∀ (l : List α) (i j : Nat) (a : α), i ≠ j → (l.set i a).get? j = l.get? j := by
  intro l
  induction l with
  | nil => intro i j a _; rfl
  | cons x xs ih =>
    intro i j a h
    cases i with
    | zero =>
      cases j with
      | zero => exact absurd rfl h
      | succ m => rfl
    | succ n =>
      cases j with
      | zero => rfl
      | succ m => exact ih n m a (fun he => h (by rw [he]))

theorem gatherStep_length (tasks : List AttemptResult) (acc : List (Option AttemptResult))
    (i : Nat) : (gatherStep tasks acc i).length = acc.length := by
  unfold gatherStep
  cases tasks.get? i <;> simp

theorem gatherGo (tasks : List AttemptResult) :
    ∀ (schedule : List Nat) (acc : List (Option AttemptResult)),
      acc.length = tasks.length →
      ∀ j, (schedule.foldl (gatherStep tasks) acc).get? j
        = if j ∈ schedule then (tasks.get? j).map some else acc.get? j := by
  intro schedule
  induction schedule with
  | nil => intro acc _ j; simp
  | cons i rest ih =>
    intro acc hlen j
    have hstep : (gatherStep tasks acc i).length = tasks.length := by
      rw [gatherStep_length, hlen]
    simp only [List.foldl_cons]
    rw [ih _ hstep j]
    by_cases hjr : j ∈ rest
    · simp [hjr, List.mem_cons]
    · by_cases hji : j = i
      · subst hji
        simp only [hjr, if_false, List.mem_cons, or_false, if_pos rfl, eq_self_iff_true,
          true_or, if_true]
        unfold gatherStep
        cases hq : tasks.get? j with
        | some r =>
          have hlt : j < tasks.length := by
            by_contra hnot
            rw [List.get?_eq_none.mpr (Nat.le_of_not_lt hnot)] at hq
            exact Option.noConfusion hq
          rw [get?_set_self_of_lt _ _ _ (by rw [hlen]; exact hlt)]
          rfl
        | none =>
          have hge : tasks.length ≤ j := List.get?_eq_none.mp hq
          rw [List.get?_eq_none.mpr (by rw [hlen]; exact hge)]
          rfl
      · simp only [hjr, if_false, List.mem_cons, hji, false_or]
        unfold gatherStep
        cases tasks.get? i with
        | some r => exact get?_set_of_ne _ _ _ _ (fun he => hji (he.symm))
        | none => rfl

theorem gatherSchedule_covers (tasks : List AttemptResult) (schedule : List Nat)
    (hcov : ∀ j, j < tasks.length → j ∈ schedule) :
    gatherSchedule tasks schedule = tasks.map some := by
  apply List.ext
  intro j
  rw [gatherSchedule, gatherGo tasks schedule _ (List.length_replicate _ _) j]
  by_cases hj : j < tasks.length
  · rw [if_pos (hcov j hj), List.get?_map]
  · have hge : tasks.length ≤ j := Nat.le_of_not_lt hj
    have h1 : tasks.get? j = none := List.get?_eq_none.mpr hge
    have h2 : (tasks.map some).get? j = none := by
      apply List.get?_eq_none.mpr
      rw [List.length_map]
      exact hge
    have h3 : (List.replicate tasks.length (none : Option AttemptResult)).get? j = none := by
      apply List.get?_eq_none.mpr
      rw [List.length_replicate]
      exact hge
    by_cases hm : j ∈ schedule
    · rw [if_pos hm, h1, h2]
      rfl
    · rw [if_neg hm, h3, h2]

/-! Claim theorems. -/

/-- Claim C1 (code_bug evidence): when every dispatched transcription
fails, the embedded transcribe_file reports status partial_success, not
the failure the claim requires for a batch with no Success outcome.  The
aggregation loop only ever demotes success to partial_success, so the
failure message branch after the loop is unreachable. -/
theorem batch_all_failed_yields_partial_success :
    transcribe_file fsOk attemptBoom "d" (PathKind.isDir [["a.mp3"]]) false
      = { status := "partial_success",
          message := "Transcription complete with some failures.",
          data := BatchData.outcomes [FileOutcome.failure "d/a.mp3" "boom"] } := by
  decide

/-- Claim C2: a raised error at any dispatched file is recorded as a
failure outcome paired with that file, each file still gets exactly one
entry, and the overall result is a structured BatchResult with one of the
loop's statuses — no exception escapes the batch operation, for any
file-system oracle and any combination of per-file outcomes. -/
theorem dispatch_partial_failure_isolation (fs : FsOracle)
    (attempt : String → AttemptResult) (files : List String) (i : Nat) (e : String)
    (h : i < files.length)
    (hexn : attempt (files.get ⟨i, h⟩) = AttemptResult.exn e) :
    (dispatchAndAggregate fs attempt files).dataList.get? i
        = some (FileOutcome.failure (files.get ⟨i, h⟩) e)
    ∧ (dispatchAndAggregate fs attempt files).dataList.length = files.length
    ∧ ((dispatchAndAggregate fs attempt files).status = "success"
       ∨ (dispatchAndAggregate fs attempt files).status = "partial_success") := by
  refine ⟨?_, ?_, dispatch_status_mem fs attempt files⟩
  · rw [dispatch_dataList, List.get?_map, List.get?_eq_get h, Option.map_some', hexn,
      perFileOutcome_exn]
  · rw [dispatch_dataList, List.length_map]

/-- Witness for dispatch_partial_failure_isolation at a concrete batch. -/
theorem dispatch_partial_failure_isolation_wit :
    (dispatchAndAggregate fsOk sampleAttempt sampleFiles).dataList.get? 0
        = some (FileOutcome.failure "a/x.mp3" "boom")
    ∧ (dispatchAndAggregate fsOk sampleAttempt sampleFiles).dataList.length
        = sampleFiles.length
    ∧ ((dispatchAndAggregate fsOk sampleAttempt sampleFiles).status = "success"
       ∨ (dispatchAndAggregate fsOk sampleAttempt sampleFiles).status = "partial_success") :=
  dispatch_partial_failure_isolation fsOk sampleAttempt sampleFiles 0 "boom"
    (by decide) rfl

/-- Claim C3: for a file whose attempt resolved to a Transcript, the loop
writes to the sibling transcript.json of that file, records a success
entry carrying that path on write success, records a failure entry whose
message names the path and the cause on write failure, and the batch keeps
one entry per file either way. -/
theorem aggregator_transcript_write_outcomes (fs : FsOracle)
    (attempt : String → AttemptResult) (files : List String) (i : Nat) (t : Transcript)
    (h : i < files.length)
    (hval : attempt (files.get ⟨i, h⟩) = AttemptResult.val (TaskValue.transcript t)) :
    (dispatchAndAggregate fs attempt files).dataList.length = files.length
    ∧ (tryWriteJson fs (siblingJsonPath (files.get ⟨i, h⟩)) (TaskValue.transcript t)
          = Except.ok () →
        (dispatchAndAggregate fs attempt files).dataList.get? i
          = some (FileOutcome.success (files.get ⟨i, h⟩)
              (siblingJsonPath (files.get ⟨i, h⟩))))
    ∧ (∀ c, tryWriteJson fs (siblingJsonPath (files.get ⟨i, h⟩)) (TaskValue.transcript t)
          = Except.error c →
        (dispatchAndAggregate fs attempt files).dataList.get? i
          = some (FileOutcome.failure (files.get ⟨i, h⟩)
              ("Failed to write JSON to " ++ siblingJsonPath (files.get ⟨i, h⟩)
                ++ ": " ++ c))) := by
  refine ⟨by rw [dispatch_dataList, List.length_map], ?_, ?_⟩
  · intro hw
    rw [dispatch_dataList, List.get?_map, List.get?_eq_get h, Option.map_some', hval,
      perFileOutcome_val_ok fs _ _ hw]
  · intro c hw
    rw [dispatch_dataList, List.get?_map, List.get?_eq_get h, Option.map_some', hval,
      perFileOutcome_val_err fs _ _ c hw]

/-- Witness for aggregator_transcript_write_outcomes: the write-failure
branch at a concrete batch whose writes fail with a full disk. -/
theorem aggregator_transcript_write_outcomes_wit :
    (dispatchAndAggregate fsRejectWrites sampleAttempt sampleFiles).dataList.get? 1
      = some (FileOutcome.failure "a/y.wav"
          "Failed to write JSON to a/transcript.json: disk full") :=
  (aggregator_transcript_write_outcomes fsRejectWrites sampleAttempt sampleFiles 1
      { text := "hi", words := [] } (by decide) rfl).2.2 "disk full" rfl

/-- Claim C4 (code_bug evidence): a regular file with the supported
extension mp3 is rejected: the dot-stripped lowercased suffix is compared
against SUPPORTED_FORMATS, whose entries all carry a leading dot, so the
membership test never succeeds and the claimed singleton batch is never
formed. -/
theorem single_file_supported_extension_rejected :
    transcribe_file fsOk attemptBoom "notes/audio.mp3" PathKind.isFile false
      = { status := "failure",
          message := "File notes/audio.mp3 has an unsupported format.",
          data := BatchData.strData "mp3" } := by
  decide

/-- Claim C5 (code_bug evidence): a directory containing the supported
file a.wav yields the no-files-found failure, because the non-mp3 glob
patterns are built as star-dot-dot-extension and match nothing with a
single dot; and the scan does not eliminate duplicates: a recursive scan
of a directory holding b..mp3 collects that file twice. -/
theorem directory_scan_misses_supported_files :
    transcribe_file fsOk attemptBoom "d" (PathKind.isDir [["a.wav"]]) false
      = { status := "failure", message := "No supported media files found in d",
          data := BatchData.outcomes [] }
    ∧ (locateDir [["b..mp3"]] true).length = 2 :=
  ⟨by decide, by decide⟩

/-- Claim C6: for any completion schedule that covers every task index,
the gather model returns the results in task order, and the batch data has
exactly one entry per located file, in the located order — the entry at
each index reports on the file at that index. -/
theorem batch_data_order_schedule_independent (fs : FsOracle)
    (attempt : String → AttemptResult) (files : List String) (schedule : List Nat)
    (hcov : ∀ j, j < files.length → j ∈ schedule) :
    gatherSchedule (files.map attempt) schedule = (files.map attempt).map some
    ∧ (dispatchAndAggregate fs attempt files).dataList.length = files.length
    ∧ ∀ i, ((dispatchAndAggregate fs attempt files).dataList.get? i).map FileOutcome.file
        = files.get? i := by
  refine ⟨gatherSchedule_covers _ _ (by simpa using hcov), ?_, ?_⟩
  · rw [dispatch_dataList, List.length_map]
  · intro i
    rw [dispatch_dataList, List.get?_map]
    cases hq : files.get? i with
    | none => rfl
    | some f => simp [perFileOutcome_file]

/-- Witness for batch_data_order_schedule_independent with the second task
completing first. -/
theorem batch_data_order_schedule_independent_wit :
    gatherSchedule (sampleFiles.map sampleAttempt) sampleSchedule
        = (sampleFiles.map sampleAttempt).map some
    ∧ (dispatchAndAggregate fsOk sampleAttempt sampleFiles).dataList.length
        = sampleFiles.length
    ∧ ((dispatchAndAggregate fsOk sampleAttempt sampleFiles).dataList.get? 0).map
        FileOutcome.file = sampleFiles.get? 0 := by
  have h := batch_data_order_schedule_independent fsOk sampleAttempt sampleFiles
    sampleSchedule (by decide)
  exact ⟨h.1, h.2.1, h.2.2 0⟩

/-- Claim C7: whenever the service call itself returns (so the wrapper
does not re-raise), transcribe_audiofile returns a plain status dict whose
result key is Success or Failure — persistence failure included — and its
return value is never a Transcript object, for any oracle outcomes. -/
theorem transcribe_audiofile_status_dict (fs : FsOracle) (svc : ServiceResult)
    (path : String) :
    (∀ t, transcribe_audiofile fs svc path ≠ CallResult.returned (TaskValue.transcript t))
    ∧ (∀ v, svc = ServiceResult.retVal v →
        ∃ kvs, transcribe_audiofile fs svc path
            = CallResult.returned (TaskValue.statusDict kvs)
          ∧ (dictLookup kvs "result" = some (Json.str "Success")
             ∨ dictLookup kvs "result" = some (Json.str "Failure"))) := by
  constructor
  · intro t
    cases svc with
    | raises e => simp [transcribe_audiofile]
    | retVal v =>
      cases h : attemptSave fs (siblingJsonPath path) v <;>
        simp [transcribe_audiofile, h]
  · intro v hv
    subst hv
    cases h : attemptSave fs (siblingJsonPath path) v with
    | ok u =>
      refine ⟨[("result", Json.str "Success"),
               ("json_output_path", Json.str (siblingJsonPath path))], ?_, Or.inl rfl⟩
      simp [transcribe_audiofile, h]
    | error e =>
      refine ⟨[("result", Json.str "Failure"),
               ("error", Json.str ("Failed to save transcription to "
                  ++ siblingJsonPath path ++ ": " ++ e))], ?_, Or.inr rfl⟩
      simp [transcribe_audiofile, h]

/-- Witness for transcribe_audiofile_status_dict on a successful service
call. -/
theorem transcribe_audiofile_status_dict_wit :
    ∃ kvs, transcribe_audiofile fsOk
        (ServiceResult.retVal (ServiceValue.transcriptLike "hi" [])) "a/b.mp3"
        = CallResult.returned (TaskValue.statusDict kvs)
      ∧ (dictLookup kvs "result" = some (Json.str "Success")
         ∨ dictLookup kvs "result" = some (Json.str "Failure")) :=
  (transcribe_audiofile_status_dict fsOk
    (ServiceResult.retVal (ServiceValue.transcriptLike "hi" [])) "a/b.mp3").2
    (ServiceValue.transcriptLike "hi" []) rfl

/-- Claim C8 counterexample: the Word model accepts data with start after
end and confidence outside the unit interval unchanged, so construction
and loading do not preserve the claimed invariant. -/
theorem word_invariant_not_enforced_cex :
    Word.model_validate badWordJson = Except.ok badWord
    ∧ ¬ (badWord.start ≤ badWord.«end»
         ∧ 0 ≤ badWord.confidence ∧ badWord.confidence ≤ 1) :=
  ⟨rfl, by decide⟩

/-- Claim C8 amended: Word validation stores text, start, end and
confidence exactly as given, enforcing no relation between start and end
and no bound on confidence, so the invariant holds exactly when the input
data satisfies it; an absent confidence defaults to 1.0, which lies in the
unit interval. -/
theorem word_validate_passthrough (txt : String) (s e : Int) (c : ℚ) :
    Word.model_validate (Json.obj [("text", Json.str txt), ("start", Json.num (s : ℚ)),
        ("end", Json.num (e : ℚ)), ("confidence", Json.num c)])
      = Except.ok { text := txt, start := s, «end» := e, confidence := c,
                    speaker := none, channel := none }
    ∧ Word.model_validate (Json.obj [("text", Json.str txt), ("start", Json.num (s : ℚ)),
        ("end", Json.num (e : ℚ))])
      = Except.ok { text := txt, start := s, «end» := e, confidence := 1,
                    speaker := none, channel := none }
    ∧ ((0 : ℚ) ≤ 1 ∧ (1 : ℚ) ≤ 1) :=
  ⟨rfl, rfl, by norm_num⟩

/-- Claim C9: dumping the scenario Transcript to JSON and loading it back
through Transcript.from_file yields the original structure. -/
theorem transcript_json_round_trip :
    Transcript.fromFileData "transcript.json" (Transcript.model_dump roundTripTranscript)
      = Except.ok roundTripTranscript := rfl

/-- Claim C10: on a parsed JSON object with no top-level text key,
read_transcript returns the failure dict naming the missing text field;
when the key is present it returns the success dict carrying that value. -/
theorem read_transcript_text_field (kvs : List (String × Json)) (p : String) :
    (kvs.any (fun kv => kv.1 == "text") = false →
      read_transcript p (Except.ok (Json.obj kvs))
        = [("status", Json.str "failure"),
           ("error", Json.str ("No 'text' field found in the JSON file at " ++ p))])
    ∧ (∀ v, dictLookup kvs "text" = some v →
      read_transcript p (Except.ok (Json.obj kvs))
        = [("status", Json.str "success"), ("text", v)]) := by
  constructor
  · intro hno
    simp [read_transcript, pyContains, hno]
  · intro v hv
    have hany : kvs.any (fun kv => kv.1 == "text") = true := by
      cases hb : kvs.any (fun kv => kv.1 == "text") with
      | true => rfl
      | false =>
        rw [dictLookup, dictLookup_foldl_skip "text" kvs none hb] at hv
        exact Option.noConfusion hv
    simp [read_transcript, pyContains, hany, pyGetItem, hv]

/-- Witness for read_transcript_text_field: present and absent text field
on concrete objects. -/
theorem read_transcript_text_field_wit :
    read_transcript "t.json" (Except.ok (Json.obj [("text", Json.str "hi")]))
        = [("status", Json.str "success"), ("text", Json.str "hi")]
    ∧ read_transcript "t.json" (Except.ok (Json.obj []))
        = [("status", Json.str "failure"),
           ("error", Json.str "No 'text' field found in the JSON file at t.json")] :=
  ⟨(read_transcript_text_field [("text", Json.str "hi")] "t.json").2 (Json.str "hi") rfl,
   (read_transcript_text_field [] "t.json").1 rfl⟩

end Transcriber
